import Mathlib

/-!
Verification development for the IDS repository (scripts/network_monitor.py,
scripts/anomaly_detector.py).  The Python classes are shallowly embedded:

* wall-clock / monotonic times (Python floats from `time.time()`) are
  idealised as rationals `ℚ`, passed explicitly as a `now` argument wherever
  the Python code calls `time.time()` or `datetime.now()`;
* Python `dict` / `defaultdict` become association lists `List (String × α)`
  with insertion-order semantics, matching CPython dict iteration order;
* Python `set` becomes a duplicate-free list built with `insertNat` /
  `insertStr` (length of the list = `len` of the set);
* fallible decoding (the `try ... except` around `struct.unpack`) becomes an
  `Option` result;
* `statistics.stdev` returns `sqrt` of the Bessel-corrected sample variance,
  which is irrational in general.  To keep the embedding executable the
  baseline stores the sample *variance* (`stdSq`), and every comparison the
  Python code makes against the standard deviation is carried over in the
  equivalent squared form: for a nonnegative multiplier `c` (the program only
  ever uses 1.5, 2, 2.5, 3, 4) and `std > 0`,
  `|x - mean| / std > c  ↔  (x - mean)^2 > c^2 * var`, and `std = 0 ↔ var = 0`.
-/

namespace IDS

/-! ## Association-list helpers (Python dict semantics) -/

/-- Lookup in an insertion-ordered association list (Python `d[k]` / `k in d`). -/
def alookup {α : Type} (m : List (String × α)) (k : String) : Option α :=
  match m with
  | [] => none
  | (k1, v) :: rest => if k1 = k then some v else alookup rest k

/-- Lookup with a default (Python `d.get(k, dflt)` / `defaultdict` read). -/
def alookupD {α : Type} (m : List (String × α)) (k : String) (d : α) : α :=
  match alookup m k with
  | some v => v
  | none => d

/-- Python `k in d`. -/
def hasKey {α : Type} (m : List (String × α)) (k : String) : Bool :=
  (alookup m k).isSome

/-- Python `d[k] = v`: overwrite in place if present, else append (CPython
dicts preserve insertion order). -/
def setk {α : Type} (m : List (String × α)) (k : String) (v : α) : List (String × α) :=
  if hasKey m k then m.map (fun p => if p.1 = k then (k, v) else p)
  else m ++ [(k, v)]

/-- Python `set.add` for a set of ports, modelled as a duplicate-free list. -/
def insertNat (l : List ℕ) (x : ℕ) : List ℕ :=
  if x ∈ l then l else l ++ [x]

/-- Python `set.add` for a set of IP strings. -/
def insertStr (l : List String) (x : String) : List String :=
  if x ∈ l then l else l ++ [x]

/-- Python `set.remove` / `set.discard` for IP strings. -/
def removeStr (l : List String) (x : String) : List String :=
  l.filter (fun y => y ≠ x)

/-! ## Decoder (`NetworkMonitor.parse_ip_header` / `parse_tcp_header`)

A raw packet is a byte list.  `struct.unpack` on `packet[0:20]` raises
(caught, returning `None`) exactly when the slice is shorter than 20 bytes;
inside 20 bytes the unpack always succeeds, whatever the byte values. -/

/-- Byte at offset `i`; only ever read under a length guard. -/
def byteAt (p : List ℕ) (i : ℕ) : ℕ :=
  (p.get? i).getD 0

/-- `socket.inet_ntoa` of four bytes: the dotted-quad string. -/
def ipString (a b c d : ℕ) : String :=
  toString a ++ "." ++ toString b ++ "." ++ toString c ++ "." ++ toString d

structure IPInfo where
  version : ℕ
  header_length : ℕ
  ttl : ℕ
  protocol : ℕ
  source_ip : String
  destination_ip : String
deriving DecidableEq

/-- `NetworkMonitor.parse_ip_header`.  Mirrors the source: unpack the first 20
bytes (failure, i.e. `None`, exactly when fewer than 20 bytes are present);
extract version and IHL from byte 0, TTL from byte 8, protocol from byte 9,
addresses from bytes 12–15 and 16–19.  Note: the source performs no
validation of `version` or `ihl` — any 20-byte input decodes successfully. -/
def parse_ip_header (packet : List ℕ) : Option IPInfo :=
  if packet.length < 20 then none
  else
    some { version := byteAt packet 0 / 16
           header_length := (byteAt packet 0 % 16) * 4
           ttl := byteAt packet 8
           protocol := byteAt packet 9
           source_ip := ipString (byteAt packet 12) (byteAt packet 13)
             (byteAt packet 14) (byteAt packet 15)
           destination_ip := ipString (byteAt packet 16) (byteAt packet 17)
             (byteAt packet 18) (byteAt packet 19) }

structure TCPInfo where
  source_port : ℕ
  destination_port : ℕ
  sequence : ℕ
  acknowledgement : ℕ
  header_length : ℕ
  flags : ℕ
deriving DecidableEq

/-- `NetworkMonitor.parse_tcp_header`: unpack the 20 bytes starting at
`ihl` (the IP header length); `struct.unpack` fails (→ `None`) exactly when
the slice `packet[ihl : ihl + 20]` is shorter than 20 bytes. -/
def parse_tcp_header (packet : List ℕ) (ihl : ℕ) : Option TCPInfo :=
  if packet.length < ihl + 20 then none
  else
    some { source_port := byteAt packet ihl * 256 + byteAt packet (ihl + 1)
           destination_port := byteAt packet (ihl + 2) * 256 + byteAt packet (ihl + 3)
           sequence := ((byteAt packet (ihl + 4) * 256 + byteAt packet (ihl + 5)) * 256
             + byteAt packet (ihl + 6)) * 256 + byteAt packet (ihl + 7)
           acknowledgement := ((byteAt packet (ihl + 8) * 256 + byteAt packet (ihl + 9)) * 256
             + byteAt packet (ihl + 10)) * 256 + byteAt packet (ihl + 11)
           header_length := (byteAt packet (ihl + 12) / 16) * 4
           flags := byteAt packet (ihl + 13) }

/-! ## NetworkMonitor state (`NetworkMonitor.__init__`)

Python uses two clocks, `time.time()` (timestamps, alert ids) and
`datetime.now()` (ISO strings in alerts / activity logs).  The embedding uses
a single rational clock `now` for both; alert/activity timestamp fields hold
that rational directly. -/

/-- One entry of an investigation activity log
(`{timestamp, action, details, severity}`). -/
structure Activity where
  timestamp : ℚ
  action : String
  details : String
  severity : String
deriving DecidableEq

/-- An alert as assembled by the monitor (dict literal in the source). -/
structure Alert where
  id : String
  type : String
  title : String
  description : String
  timestamp : ℚ
  source_ip : String
  destination_ip : String
  status : String
deriving DecidableEq

/-- One entry of `traffic_history` (dict literal at the end of
`analyze_packet`). -/
structure TrafficEntry where
  timestamp : ℚ
  source_ip : String
  dest_ip : String
  dest_port : ℕ
  protocol : String
  flags : ℕ
deriving DecidableEq

/-- A record of `ip_investigation_data`.  Python creates the dict without
`status` / `last_seen` keys; `get_ip_investigation_data` writes them in.
Absent keys are modelled as `none`. -/
structure InvestigationData where
  first_seen : ℚ
  activities : List Activity
  ports_accessed : List ℕ
  classification : String
  notes : String
  status : Option String
  last_seen : Option ℚ
deriving DecidableEq

/-- `NetworkMonitor.config` (the keys the detection paths read). -/
structure Config where
  port_scan_threshold : ℕ
  ddos_threshold : ℕ
  monitoring_enabled : Bool
  auto_block : Bool
deriving DecidableEq

/-- The mutable state of a `NetworkMonitor` instance. -/
structure MonitorState where
  packet_count : ℕ
  suspicious_packets : ℕ
  connection_tracker : List (String × List ℚ)
  port_scan_tracker : List (String × List ℕ)
  traffic_history : List TrafficEntry
  blocked_ips : List String
  whitelisted_ips : List String
  alerts : List Alert
  ip_investigation_data : List (String × InvestigationData)
  config : Config
deriving DecidableEq

/-- `NetworkMonitor.__init__` defaults. -/
def initConfig : Config :=
  { port_scan_threshold := 10, ddos_threshold := 100
    monitoring_enabled := true, auto_block := false }

/-- A freshly constructed `NetworkMonitor`. -/
def initState : MonitorState :=
  { packet_count := 0, suspicious_packets := 0, connection_tracker := []
    port_scan_tracker := [], traffic_history := [], blocked_ips := []
    whitelisted_ips := [], alerts := [], ip_investigation_data := []
    config := initConfig }

/-! ## Monitor operations -/

/-- The fresh record built inside `detect_port_scan` / `detect_ddos` /
`update_ip_notes` when an IP is first added to `ip_investigation_data`. -/
def newInvestigation (now : ℚ) (ports : List ℕ) : InvestigationData :=
  { first_seen := now, activities := [], ports_accessed := ports
    classification := "unknown", notes := "", status := none, last_seen := none }

/-- Ensure an investigation record exists (the `if source_ip not in
self.ip_investigation_data` block of the detectors). -/
def ensureInv (m : List (String × InvestigationData)) (src : String) (now : ℚ)
    (ports : List ℕ) : List (String × InvestigationData) :=
  if hasKey m src then m else setk m src (newInvestigation now ports)

/-- Append one activity entry to an existing record
(`self.ip_investigation_data[source_ip]['activities'].append(...)`). -/
def addActivity (m : List (String × InvestigationData)) (src : String)
    (act : Activity) : List (String × InvestigationData) :=
  match alookup m src with
  | none => m
  | some d => setk m src { d with activities := d.activities ++ [act] }

/-- The investigation bookkeeping both rule detectors perform after raising
an alert: create the record if absent, then append the activity. -/
def recordDetection (s : MonitorState) (src : String) (ports : List ℕ)
    (act : Activity) (now : ℚ) : MonitorState :=
  { s with ip_investigation_data :=
      addActivity (ensureInv s.ip_investigation_data src now ports) src act }

/-- The auto-block step shared by both rule detectors:
`if self.config['auto_block'] and source_ip not in self.whitelisted_ips`. -/
def autoBlock (s : MonitorState) (src : String) : MonitorState :=
  if s.config.auto_block = true ∧ src ∉ s.whitelisted_ips then
    { s with blocked_ips := insertStr s.blocked_ips src }
  else s

/-- The alert dict built in `detect_port_scan` (`n` = size of the port set;
`int(current_time)` is modelled by the rational floor, which agrees with
Python `int()` truncation on the nonnegative times the program uses). -/
def portScanAlert (src : String) (n : ℕ) (now : ℚ) : Alert :=
  { id := "ps_" ++ toString now.floor, type := "high"
    title := "Port Scan Detected"
    description := "IP " ++ src ++ " has accessed " ++ toString n ++ " different ports"
    timestamp := now, source_ip := src, destination_ip := "multiple"
    status := "active" }

/-- The activity entry appended by `detect_port_scan`. -/
def portScanActivity (n : ℕ) (now : ℚ) : Activity :=
  { timestamp := now, action := "Port Scan Detected"
    details := "Accessed " ++ toString n ++ " different ports", severity := "high" }

/-- `NetworkMonitor.detect_port_scan`.  Returns the updated state and the
Boolean the Python method returns. -/
def detect_port_scan (s : MonitorState) (src : String) (port : ℕ) (now : ℚ) :
    MonitorState × Bool :=
  if src ∈ s.whitelisted_ips then (s, false)
  else
    let ports := insertNat (alookupD s.port_scan_tracker src []) port
    let s1 := { s with port_scan_tracker := setk s.port_scan_tracker src ports }
    if s1.config.port_scan_threshold < ports.length then
      let s2 := { s1 with alerts := s1.alerts ++ [portScanAlert src ports.length now]
                          suspicious_packets := s1.suspicious_packets + 1 }
      let s3 := recordDetection s2 src ports (portScanActivity ports.length now) now
      (autoBlock s3 src, true)
    else (s1, false)

/-- The alert dict built in `detect_ddos` (`n` = packets seen in the last
second). -/
def ddosAlert (src : String) (n : ℕ) (now : ℚ) : Alert :=
  { id := "ddos_" ++ toString now.floor, type := "high"
    title := "DDoS Attack Detected"
    description := "IP " ++ src ++ " sent " ++ toString n ++ " packets in 1 second"
    timestamp := now, source_ip := src, destination_ip := "multiple"
    status := "active" }

/-- The activity entry appended by `detect_ddos`. -/
def ddosActivity (n : ℕ) (now : ℚ) : Activity :=
  { timestamp := now, action := "DDoS Attack Detected"
    details := "Sent " ++ toString n ++ " packets in 1 second", severity := "high" }

/-- `NetworkMonitor.detect_ddos`.  Reads `connection_tracker[source_ip]`
(present whenever the pipeline calls this, since `analyze_packet` appends the
timestamp first; the `defaultdict` read is modelled with default `[]`). -/
def detect_ddos (s : MonitorState) (src : String) (now : ℚ) :
    MonitorState × Bool :=
  if src ∈ s.whitelisted_ips then (s, false)
  else
    let recent := (alookupD s.connection_tracker src []).filter (fun t => now - t < 1)
    if s.config.ddos_threshold < recent.length then
      let s1 := { s with alerts := s.alerts ++ [ddosAlert src recent.length now]
                         suspicious_packets := s.suspicious_packets + 1 }
      let s2 := recordDetection s1 src [] (ddosActivity recent.length now) now
      (autoBlock s2 src, true)
    else (s, false)

/-- Append to the bounded `traffic_history` deque (`maxlen=1000`). -/
def logTraffic (s : MonitorState) (e : TrafficEntry) : MonitorState :=
  { s with traffic_history :=
      if s.traffic_history.length < 1000 then s.traffic_history ++ [e]
      else s.traffic_history.drop 1 ++ [e] }

/-- The tail of `analyze_packet` (lines 247–249): record the destination port
in the investigation data, if a record exists and the port is new there. -/
def updateInvPorts (s : MonitorState) (src : String) (port : ℕ) : MonitorState :=
  match alookup s.ip_investigation_data src with
  | none => s
  | some d =>
      if port ∈ d.ports_accessed then s
      else
        let d1 := { d with ports_accessed := d.ports_accessed ++ [port] }
        { s with ip_investigation_data := setk s.ip_investigation_data src d1 }

/-- The traffic-log entry built in `analyze_packet`. -/
def mkTrafficEntry (now : ℚ) (info : IPInfo) (tcp : TCPInfo) : TrafficEntry :=
  { timestamp := now, source_ip := info.source_ip, dest_ip := info.destination_ip
    dest_port := tcp.destination_port, protocol := "TCP", flags := tcp.flags }

/-- The TCP branch of `analyze_packet` (protocol = 6): parse the TCP header,
run both rule detectors, append to the traffic log, update investigation
ports. -/
def analyzeTcp (s : MonitorState) (packet : List ℕ) (info : IPInfo) (now : ℚ) :
    MonitorState :=
  match parse_tcp_header packet info.header_length with
  | none => s
  | some tcp =>
      let s1 := (detect_port_scan s info.source_ip tcp.destination_port now).1
      let s2 := (detect_ddos s1 info.source_ip now).1
      let s3 := logTraffic s2 (mkTrafficEntry now info tcp)
      updateInvPorts s3 info.source_ip tcp.destination_port

/-- `NetworkMonitor.analyze_packet`.  Counts the packet, decodes, drops
blocked sources, short-circuits whitelisted sources to a bare timestamp
append (no eviction, no detection, no traffic log), and otherwise records the
timestamp with 60-second eviction before running the TCP analysis. -/
def analyze_packet (s : MonitorState) (packet : List ℕ) (now : ℚ) : MonitorState :=
  let s0 := { s with packet_count := s.packet_count + 1 }
  match parse_ip_header packet with
  | none => s0
  | some info =>
      if info.source_ip ∈ s0.blocked_ips then s0
      else if info.source_ip ∈ s0.whitelisted_ips then
        let times := alookupD s0.connection_tracker info.source_ip [] ++ [now]
        { s0 with connection_tracker := setk s0.connection_tracker info.source_ip times }
      else
        let times := (alookupD s0.connection_tracker info.source_ip [] ++ [now]).filter
          (fun t => now - t < 60)
        let s1 := { s0 with connection_tracker := setk s0.connection_tracker info.source_ip times }
        if info.protocol = 6 then analyzeTcp s1 packet info now else s1

/-- The activity entry appended by `block_ip`. -/
def blockActivity (now : ℚ) : Activity :=
  { timestamp := now, action := "IP Blocked"
    details := "Manually blocked by administrator", severity := "info" }

/-- `NetworkMonitor.block_ip`: refuse whitelisted addresses (return `false`,
no state change); otherwise add to the blocklist and, if an investigation
record exists, classify it malicious and log the action. -/
def block_ip (s : MonitorState) (ip : String) (now : ℚ) : MonitorState × Bool :=
  if ip ∈ s.whitelisted_ips then (s, false)
  else if ip ∈ s.blocked_ips then (s, false)
  else
    let s1 := { s with blocked_ips := insertStr s.blocked_ips ip }
    match alookup s1.ip_investigation_data ip with
    | none => (s1, true)
    | some d =>
        let d1 := { d with classification := "malicious",
                           activities := d.activities ++ [blockActivity now] }
        ({ s1 with ip_investigation_data := setk s1.ip_investigation_data ip d1 }, true)

/-- The activity entry appended by `whitelist_ip`. -/
def whitelistActivity (now : ℚ) : Activity :=
  { timestamp := now, action := "IP Whitelisted"
    details := "Manually whitelisted by administrator", severity := "info" }

/-- `NetworkMonitor.whitelist_ip`: always first remove the address from the
blocklist, then add to the whitelist if absent (classifying any existing
investigation record benign). -/
def whitelist_ip (s : MonitorState) (ip : String) (now : ℚ) : MonitorState × Bool :=
  let s0 := { s with blocked_ips := removeStr s.blocked_ips ip }
  if ip ∈ s0.whitelisted_ips then (s0, false)
  else
    let s1 := { s0 with whitelisted_ips := insertStr s0.whitelisted_ips ip }
    match alookup s1.ip_investigation_data ip with
    | none => (s1, true)
    | some d =>
        let d1 := { d with classification := "benign",
                           activities := d.activities ++ [whitelistActivity now] }
        ({ s1 with ip_investigation_data := setk s1.ip_investigation_data ip d1 }, true)

/-- The derived status `get_ip_investigation_data` computes from the access
lists (blocked takes priority over whitelisted). -/
def statusOf (s : MonitorState) (ip : String) : String :=
  if ip ∈ s.blocked_ips then "blocked"
  else if ip ∈ s.whitelisted_ips then "whitelisted"
  else "monitoring"

/-- `NetworkMonitor.get_ip_investigation_data`.  Python mutates the stored
dict in place (`data['status'] = ...; data['last_seen'] = ...`) and returns
that same dict; the embedding returns the updated state together with the
returned record. -/
def get_ip_investigation_data (s : MonitorState) (ip : String) (now : ℚ) :
    MonitorState × Option InvestigationData :=
  match alookup s.ip_investigation_data ip with
  | none => (s, none)
  | some d =>
      let d1 := { d with status := some (statusOf s ip), last_seen := some now }
      ({ s with ip_investigation_data := setk s.ip_investigation_data ip d1 }, some d1)

/-- `NetworkMonitor.update_ip_notes`: create the record if absent, then set
the notes field. -/
def update_ip_notes (s : MonitorState) (ip : String) (text : String) (now : ℚ) :
    MonitorState :=
  let m := ensureInv s.ip_investigation_data ip now []
  match alookup m ip with
  | none => { s with ip_investigation_data := m }
  | some d => { s with ip_investigation_data := setk m ip { d with notes := text } }

/-- Modelled from the spec: `remove_block(addr)` (spec §6).  The list
mutations `remove_block` / `remove_allow` have no implementation under
`src/` (the HTTP control layer in `src/scripts/ids_api_server.py` is
truncated before any list-mutation endpoint); per the spec they simply
remove the address from the respective list. -/
def remove_block (s : MonitorState) (ip : String) : MonitorState :=
  { s with blocked_ips := removeStr s.blocked_ips ip }

/-- Modelled from the spec: `remove_allow(addr)` (spec §6); see
`remove_block`. -/
def remove_allow (s : MonitorState) (ip : String) : MonitorState :=
  { s with whitelisted_ips := removeStr s.whitelisted_ips ip }

/-- One control- or data-plane operation on the monitor, for stating
invariants over arbitrary operation sequences. -/
inductive Op where
  | analyze (packet : List ℕ) (now : ℚ)
  | block (ip : String) (now : ℚ)
  | allow (ip : String) (now : ℚ)
  | removeBlock (ip : String)
  | removeAllow (ip : String)
  | setNotes (ip : String) (text : String) (now : ℚ)
  | getData (ip : String) (now : ℚ)

/-- Apply one operation (discarding any returned value). -/
def step (s : MonitorState) (op : Op) : MonitorState :=
  match op with
  | .analyze packet now => analyze_packet s packet now
  | .block ip now => (block_ip s ip now).1
  | .allow ip now => (whitelist_ip s ip now).1
  | .removeBlock ip => remove_block s ip
  | .removeAllow ip => remove_allow s ip
  | .setNotes ip text now => update_ip_notes s ip text now
  | .getData ip now => (get_ip_investigation_data s ip now).1

/-! ## Anomaly detector (`AnomalyDetector`)

As explained in the header, `statistics.stdev` (the square root of the
Bessel-corrected sample variance) is irrational in general, so the baseline
stores the sample variance (`stdSq`) and every comparison against the
standard deviation appears in the equivalent squared form. -/

/-- Arithmetic mean of a sample (`statistics.mean`). -/
def qmean (l : List ℕ) : ℚ :=
  (l.map (fun x => (x : ℚ))).sum / (l.length : ℚ)

/-- Bessel-corrected sample variance, i.e. the square of
`statistics.stdev` (denominator `n - 1`). -/
def sampleVar (l : List ℕ) : ℚ :=
  ((l.map (fun x => ((x : ℚ) - qmean l) ^ 2)).sum) / ((l.length : ℚ) - 1)

/-- The square of `statistics.stdev(l) if len(l) > 1 else 0`. -/
def stdSq (l : List ℕ) : ℚ :=
  if 1 < l.length then sampleVar l else 0

/-- The frozen baseline (`self.baseline`); each `_var` field is the square of
the corresponding Python `_std` field. -/
structure Baseline where
  packet_rate_mean : ℚ
  packet_rate_var : ℚ
  connection_count_mean : ℚ
  connection_count_var : ℚ
  port_count_mean : ℚ
  port_count_var : ℚ
deriving DecidableEq

/-- `AnomalyDetector.thresholds` (the `unusual_port_threshold` key is never
read by any detection path and is omitted). -/
structure Thresholds where
  packet_rate_std_multiplier : ℚ
  connection_count_std_multiplier : ℚ
  ip_frequency_std_multiplier : ℚ
deriving DecidableEq

/-- An anomaly record as returned by the `detect_*` methods.  The Python dict
also carries `z_score` and a formatted `expected_range` string; both are
functions of `std = sqrt(var)` and are irrational / float-formatted, so they
are not carried in the embedding (no claim reads them). -/
structure Anomaly where
  atype : String
  severity : String
  current_value : ℚ
  ip_address : Option String
deriving DecidableEq

/-- The mutable state of an `AnomalyDetector` instance. -/
structure DetectorState where
  baseline_established : Bool
  baseline : Option Baseline
  start_time : ℚ
  packet_rates : List ℕ
  connection_counts : List ℕ
  port_distributions : List ℕ
  ip_frequencies : List (String × List ℕ)
  thresholds : Thresholds
  current_packet_rate : ℕ
  current_connection_count : ℕ
  current_unique_ports : List ℕ
  current_ip_counts : List (String × ℕ)
  alerts : List Alert
deriving DecidableEq

/-- `self.baseline_period = 3600` (set in `__init__`, never mutated). -/
def baseline_period : ℚ := 3600

/-- A freshly constructed `AnomalyDetector` (`t0` is the `time.time()` taken
in `__init__`). -/
def initDetector (t0 : ℚ) : DetectorState :=
  { baseline_established := false, baseline := none, start_time := t0
    packet_rates := [], connection_counts := [], port_distributions := []
    ip_frequencies := []
    thresholds := { packet_rate_std_multiplier := 3
                    connection_count_std_multiplier := 5 / 2
                    ip_frequency_std_multiplier := 2 }
    current_packet_rate := 0, current_connection_count := 0
    current_unique_ports := [], current_ip_counts := [], alerts := [] }

/-- Append to a `deque(maxlen=cap)`. -/
def pushCap (cap : ℕ) (l : List ℕ) (x : ℕ) : List ℕ :=
  let l1 := l ++ [x]
  if cap < l1.length then l1.drop (l1.length - cap) else l1

/-- The per-source frequency push of `update_metrics`: append, then
`popleft` once the deque exceeds 100 entries. -/
def pushFreq (l : List ℕ) (x : ℕ) : List ℕ :=
  let l1 := l ++ [x]
  if 100 < l1.length then l1.drop 1 else l1

/-- The set of destination ports of a traffic window
(`current_metrics.unique_ports`). -/
def uniquePorts (l : List TrafficEntry) : List ℕ :=
  l.foldl (fun acc e => insertNat acc e.dest_port) []

/-- Per-source packet counts of a traffic window
(`current_metrics.ip_counts`, a `defaultdict(int)` filled in entry order). -/
def ipCounts (l : List TrafficEntry) : List (String × ℕ) :=
  l.foldl (fun acc e => setk acc e.source_ip (alookupD acc e.source_ip 0 + 1)) []

/-- The `ip_frequencies` update of `update_metrics`: for each source in the
current window (in insertion order) append its count, evicting from the left
above 100 entries. -/
def updateFreqs (m : List (String × List ℕ)) (counts : List (String × ℕ)) :
    List (String × List ℕ) :=
  counts.foldl (fun m p => setk m p.1 (pushFreq (alookupD m p.1 []) p.2)) m

/-- `AnomalyDetector.update_metrics`: restrict the handed traffic data to the
last 60 seconds, recompute the four current metrics, and push them onto the
rolling series. -/
def update_metrics (s : DetectorState) (td : List TrafficEntry) (now : ℚ) :
    DetectorState :=
  let recent := td.filter (fun e => now - e.timestamp < 60)
  let ports := uniquePorts recent
  let counts := ipCounts recent
  { s with current_packet_rate := recent.length
           current_connection_count := recent.length
           current_unique_ports := ports
           current_ip_counts := counts
           packet_rates := pushCap 100 s.packet_rates recent.length
           connection_counts := pushCap 100 s.connection_counts recent.length
           port_distributions := pushCap 100 s.port_distributions ports.length
           ip_frequencies := updateFreqs s.ip_frequencies counts }

/-- The baseline statistics captured by `establish_baseline` from the three
global series (mean and Bessel-corrected sample variance, the latter being
the square of the Python `_std` entries). -/
def mkBaseline (s : DetectorState) : Baseline :=
  { packet_rate_mean := qmean s.packet_rates
    packet_rate_var := stdSq s.packet_rates
    connection_count_mean := qmean s.connection_counts
    connection_count_var := stdSq s.connection_counts
    port_count_mean := qmean s.port_distributions
    port_count_var := stdSq s.port_distributions }

/-- `AnomalyDetector.establish_baseline`: refuse before `baseline_period`
seconds of uptime or below 50 samples; otherwise capture the statistics and
set the established flag. -/
def establish_baseline (s : DetectorState) (now : ℚ) : DetectorState × Bool :=
  if now - s.start_time < baseline_period then (s, false)
  else if s.packet_rates.length < 50 then (s, false)
  else ({ s with baseline := some (mkBaseline s), baseline_established := true }, true)

/-- `AnomalyDetector.detect_packet_rate_anomaly`.  The Python comparisons
`std == 0`, `z > threshold` and `z > threshold * 1.5` appear in squared form
(see the header).  A `true` flag with `baseline = none` cannot arise in the
pipeline (Python would raise an `AttributeError` there); the embedding
returns `none`. -/
def detect_packet_rate_anomaly (s : DetectorState) : Option Anomaly :=
  if s.baseline_established = true then
    match s.baseline with
    | none => none
    | some b =>
        if b.packet_rate_var = 0 then none
        else
          let devSq := ((s.current_packet_rate : ℚ) - b.packet_rate_mean) ^ 2
          let thr := s.thresholds.packet_rate_std_multiplier
          if thr ^ 2 * b.packet_rate_var < devSq then
            some { atype := "packet_rate_anomaly"
                   severity := if (thr * (3 / 2)) ^ 2 * b.packet_rate_var < devSq
                     then "high" else "medium"
                   current_value := (s.current_packet_rate : ℚ)
                   ip_address := none }
          else none
  else none

/-- `AnomalyDetector.detect_connection_anomaly` (same shape, connection
series and multiplier). -/
def detect_connection_anomaly (s : DetectorState) : Option Anomaly :=
  if s.baseline_established = true then
    match s.baseline with
    | none => none
    | some b =>
        if b.connection_count_var = 0 then none
        else
          let devSq := ((s.current_connection_count : ℚ) - b.connection_count_mean) ^ 2
          let thr := s.thresholds.connection_count_std_multiplier
          if thr ^ 2 * b.connection_count_var < devSq then
            some { atype := "connection_anomaly"
                   severity := if (thr * (3 / 2)) ^ 2 * b.connection_count_var < devSq
                     then "high" else "medium"
                   current_value := (s.current_connection_count : ℚ)
                   ip_address := none }
          else none
  else none

/-- `AnomalyDetector.detect_port_anomaly`.  Note the source reads
`self.thresholds['connection_count_std_multiplier']` here (deliberate reuse),
and the severity split uses the factor 1.2 with levels medium / low. -/
def detect_port_anomaly (s : DetectorState) : Option Anomaly :=
  if s.baseline_established = true then
    match s.baseline with
    | none => none
    | some b =>
        if b.port_count_var = 0 then none
        else
          let devSq := ((s.current_unique_ports.length : ℚ) - b.port_count_mean) ^ 2
          let thr := s.thresholds.connection_count_std_multiplier
          if thr ^ 2 * b.port_count_var < devSq then
            some { atype := "port_usage_anomaly"
                   severity := if (thr * (6 / 5)) ^ 2 * b.port_count_var < devSq
                     then "medium" else "low"
                   current_value := (s.current_unique_ports.length : ℚ)
                   ip_address := none }
          else none
  else none

/-- The per-source check of `detect_ip_frequency_anomaly` for one
`(ip, counts)` entry. -/
def ipFreqAnomaly (s : DetectorState) (ip : String) (counts : List ℕ) :
    Option Anomaly :=
  if counts.length < 10 then none
  else
    let v := stdSq counts
    if v = 0 then none
    else
      let cur := alookupD s.current_ip_counts ip 0
      let devSq := ((cur : ℚ) - qmean counts) ^ 2
      let thr := s.thresholds.ip_frequency_std_multiplier
      if thr ^ 2 * v < devSq then
        some { atype := "ip_frequency_anomaly"
               severity := if (thr * (3 / 2)) ^ 2 * v < devSq then "high" else "medium"
               current_value := (cur : ℚ)
               ip_address := some ip }
      else none

/-- `AnomalyDetector.detect_ip_frequency_anomaly`: scan `ip_frequencies` in
insertion order.  Python returns `None` instead of an empty list; callers
only test truthiness, so the empty list carries the same information. -/
def detect_ip_frequency_anomaly (s : DetectorState) : List Anomaly :=
  s.ip_frequencies.foldl
    (fun acc p =>
      match ipFreqAnomaly s p.1 p.2 with
      | some a => acc ++ [a]
      | none => acc) []

/-- `AnomalyDetector.create_alert` title templates. -/
def anomalyTitle (t : String) : String :=
  if t = "packet_rate_anomaly" then "Unusual Packet Rate Detected"
  else if t = "connection_anomaly" then "Abnormal Connection Pattern"
  else if t = "port_usage_anomaly" then "Unusual Port Usage Pattern"
  else if t = "ip_frequency_anomaly" then "Abnormal IP Traffic Frequency"
  else "Network Anomaly Detected"

/-- `AnomalyDetector.create_alert`.  The Python description strings
interpolate float-formatted ranges (functions of the irrational std); the
embedding keeps the template keyed by anomaly type without the interpolated
range text (no claim reads the description of an anomaly alert). -/
def create_alert (now : ℚ) (a : Anomaly) : Alert :=
  { id := "anomaly_" ++ toString now.floor ++ "_" ++ a.atype
    type := a.severity
    title := anomalyTitle a.atype
    description := anomalyTitle a.atype
    timestamp := now
    source_ip := match a.ip_address with | some ip => ip | none => "multiple"
    destination_ip := "multiple"
    status := "active" }

/-- `AnomalyDetector.analyze_traffic`: update metrics; while no baseline is
established, try to establish one and return no anomalies; once established,
run the four detectors, convert each anomaly to an alert, and return the
anomalies. -/
def analyze_traffic (s : DetectorState) (td : List TrafficEntry) (now : ℚ) :
    DetectorState × List Anomaly :=
  let m := update_metrics s td now
  if m.baseline_established = false then ((establish_baseline m now).1, [])
  else
    let anoms := (detect_packet_rate_anomaly m).toList
      ++ (detect_connection_anomaly m).toList
      ++ (detect_port_anomaly m).toList
      ++ detect_ip_frequency_anomaly m
    ({ m with alerts := m.alerts ++ anoms.map (create_alert now) }, anoms)

/-! ## Concrete inputs for witnesses and counterexamples -/

/-- A 40-byte IPv4+TCP packet: version 4, IHL 5, protocol 6 (TCP), source
10.0.0.9, destination 10.0.0.1, destination port 80. -/
def pktA : List ℕ :=
  [69, 0, 0, 0, 0, 0, 0, 0, 0, 6, 0, 0, 10, 0, 0, 9, 10, 0, 0, 1,
   0, 0, 0, 80, 0, 0, 0, 0, 0, 0, 0, 0, 0, 0, 0, 0, 0, 0, 0, 0]

/-- The decoded header of `pktA`. -/
def infoA : IPInfo :=
  { version := 4, header_length := 20, ttl := 0, protocol := 6
    source_ip := "10.0.0.9", destination_ip := "10.0.0.1" }

/-- `pktA` with source address 10.0.0.1 instead. -/
def pktB : List ℕ :=
  [69, 0, 0, 0, 0, 0, 0, 0, 0, 6, 0, 0, 10, 0, 0, 1, 10, 0, 0, 1,
   0, 0, 0, 80, 0, 0, 0, 0, 0, 0, 0, 0, 0, 0, 0, 0, 0, 0, 0, 0]

/-- A 20-byte input whose version nibble is 6 and IHL nibble 0
(byte 0 = 0x60). -/
def pktBadVersion : List ℕ :=
  96 :: List.replicate 19 0

/-- A monitor with 10.0.0.9 whitelisted. -/
def sWL : MonitorState :=
  { initState with whitelisted_ips := ["10.0.0.9"] }

/-- The decoded TCP header of `pktA`. -/
def tcpA : TCPInfo :=
  { source_port := 0, destination_port := 80, sequence := 0
    acknowledgement := 0, header_length := 0, flags := 0 }

/-- A monitor with `port_scan_threshold` lowered to 0 (the configuration is
runtime-mutable, cf. `main` and the API server). -/
def sThr0 : MonitorState :=
  { initState with config := { initConfig with port_scan_threshold := 0 } }

/-- A monitor with `ddos_threshold` lowered to 0 and one recorded timestamp
for 9.9.9.9. -/
def sDdos : MonitorState :=
  { initState with config := { initConfig with ddos_threshold := 0 }
                   connection_tracker := [("9.9.9.9", [0])] }

/-- A monitor with an existing investigation record for 7.7.7.7. -/
def sInv : MonitorState :=
  { initState with ip_investigation_data := [("7.7.7.7", newInvestigation 0 [])] }

/-- The access-list exclusion invariant: no address is simultaneously
blocklisted and allowlisted. -/
def exclusion (s : MonitorState) : Prop :=
  ∀ x ∈ s.blocked_ips, x ∉ s.whitelisted_ips

/-- An example frozen baseline (mean 10, variance 1 on each series). -/
def bEx : Baseline :=
  { packet_rate_mean := 10, packet_rate_var := 1
    connection_count_mean := 10, connection_count_var := 1
    port_count_mean := 10, port_count_var := 1 }

/-- A detector with an established baseline `bEx`. -/
def stEst : DetectorState :=
  { initDetector 0 with baseline_established := true, baseline := some bEx }

/-! ## Theorems

First generic lemmas about the association-list and set helpers, then the
claims.  Claim theorems are named `C<n>_...`; their witnesses
`C<n>_..._witness`; counterexamples for refuted claims `C<n>_..._cex`. -/

theorem alookup_nil {α : Type} (k : String) : alookup ([] : List (String × α)) k = none := rfl

theorem alookup_cons {α : Type} (a : String) (b : α) (t : List (String × α)) (k : String) :
    alookup ((a, b) :: t) k = if a = k then some b else alookup t k := rfl

theorem hasKey_cons {α : Type} (a : String) (b : α) (t : List (String × α)) (k : String) :
    hasKey ((a, b) :: t) k = if a = k then true else hasKey t k := by
  simp only [hasKey, alookup_cons]
  split <;> rfl

theorem alookup_append_right {α : Type} (m : List (String × α)) (k : String) (v : α)
    (h : hasKey m k = false) : alookup (m ++ [(k, v)]) k = some v := by
  induction m with
  | nil => simp [alookup]
  | cons p t ih =>
      obtain ⟨a, b⟩ := p
      rw [hasKey_cons] at h
      by_cases ha : a = k
      · simp [ha] at h
      · simpa [alookup_cons, ha] using ih (by simpa [ha] using h)

theorem alookup_overwrite {α : Type} (m : List (String × α)) (k : String) (v : α)
    (h : hasKey m k = true) :
    alookup (m.map (fun p => if p.1 = k then (k, v) else p)) k = some v := by
  induction m with
  | nil => simp [hasKey, alookup] at h
  | cons p t ih =>
      obtain ⟨a, b⟩ := p
      rw [hasKey_cons] at h
      by_cases ha : a = k
      · simp [alookup_cons, ha]
      · simpa [alookup_cons, ha] using ih (by simpa [ha] using h)

theorem alookup_setk_self {α : Type} (m : List (String × α)) (k : String) (v : α) :
    alookup (setk m k v) k = some v := by
  unfold setk
  by_cases h : hasKey m k = true
  · rw [if_pos h]
    exact alookup_overwrite m k v h
  · rw [if_neg h]
    exact alookup_append_right m k v (by simpa using h)

theorem alookup_map_ne {α : Type} (m : List (String × α)) (k j : String) (v : α)
    (h : k ≠ j) :
    alookup (m.map (fun p => if p.1 = k then (k, v) else p)) j = alookup m j := by
  induction m with
  | nil => simp [alookup]
  | cons p t ih =>
      obtain ⟨a, b⟩ := p
      by_cases ha : a = k
      · simp [alookup_cons, ha, h, ih]
      · simp [alookup_cons, ha, ih]

theorem alookup_append_ne {α : Type} (m : List (String × α)) (k j : String) (v : α)
    (h : k ≠ j) : alookup (m ++ [(k, v)]) j = alookup m j := by
  induction m with
  | nil => simp [alookup_cons, alookup, h]
  | cons p t ih =>
      obtain ⟨a, b⟩ := p
      by_cases ha : a = j
      · simp [alookup_cons, ha]
      · simp [alookup_cons, ha, ih]

theorem alookup_setk_ne {α : Type} (m : List (String × α)) (k j : String) (v : α)
    (h : k ≠ j) : alookup (setk m k v) j = alookup m j := by
  unfold setk
  split
  · exact alookup_map_ne m k j v h
  · exact alookup_append_ne m k j v h

theorem hasKey_setk_self {α : Type} (m : List (String × α)) (k : String) (v : α) :
    hasKey (setk m k v) k = true := by
  simp [hasKey, alookup_setk_self]

theorem hasKey_setk_mono {α : Type} (m : List (String × α)) (k j : String) (v : α)
    (h : hasKey m j = true) : hasKey (setk m k v) j = true := by
  by_cases hk : k = j
  · subst hk
    exact hasKey_setk_self m k v
  · simpa [hasKey, alookup_setk_ne m k j v hk] using h

theorem hasKey_ensureInv_mono (m : List (String × InvestigationData)) (src j : String)
    (now : ℚ) (ports : List ℕ) (h : hasKey m j = true) :
    hasKey (ensureInv m src now ports) j = true := by
  unfold ensureInv
  split
  · exact h
  · exact hasKey_setk_mono m src j _ h

theorem hasKey_addActivity_mono (m : List (String × InvestigationData)) (src j : String)
    (act : Activity) (h : hasKey m j = true) :
    hasKey (addActivity m src act) j = true := by
  unfold addActivity
  split
  · exact h
  · exact hasKey_setk_mono m src j _ h

/-! ### Frame lemmas: which fields each operation leaves untouched -/

theorem autoBlock_frame (s : MonitorState) (src : String) :
    (autoBlock s src).connection_tracker = s.connection_tracker ∧
    (autoBlock s src).port_scan_tracker = s.port_scan_tracker ∧
    (autoBlock s src).whitelisted_ips = s.whitelisted_ips ∧
    (autoBlock s src).alerts = s.alerts ∧
    (autoBlock s src).traffic_history = s.traffic_history ∧
    (autoBlock s src).ip_investigation_data = s.ip_investigation_data ∧
    (autoBlock s src).config = s.config := by
  unfold autoBlock
  split <;> exact ⟨rfl, rfl, rfl, rfl, rfl, rfl, rfl⟩

theorem autoBlock_blocked_sub (s : MonitorState) (src x : String)
    (h : x ∈ (autoBlock s src).blocked_ips) :
    x ∈ s.blocked_ips ∨ (x = src ∧ src ∉ s.whitelisted_ips) := by
  unfold autoBlock at h
  split at h
  · rename_i hc
    unfold insertStr at h
    split at h
    · exact Or.inl h
    · rcases List.mem_append.mp h with h1 | h1
      · exact Or.inl h1
      · exact Or.inr ⟨List.mem_singleton.mp h1, hc.2⟩
  · exact Or.inl h

theorem updateInvPorts_frame (s : MonitorState) (src : String) (port : ℕ) :
    (updateInvPorts s src port).connection_tracker = s.connection_tracker ∧
    (updateInvPorts s src port).port_scan_tracker = s.port_scan_tracker ∧
    (updateInvPorts s src port).whitelisted_ips = s.whitelisted_ips ∧
    (updateInvPorts s src port).blocked_ips = s.blocked_ips ∧
    (updateInvPorts s src port).alerts = s.alerts ∧
    (updateInvPorts s src port).traffic_history = s.traffic_history ∧
    (updateInvPorts s src port).config = s.config := by
  unfold updateInvPorts
  split
  · exact ⟨rfl, rfl, rfl, rfl, rfl, rfl, rfl⟩
  · split <;> exact ⟨rfl, rfl, rfl, rfl, rfl, rfl, rfl⟩

theorem detect_port_scan_frame (s : MonitorState) (src : String) (port : ℕ) (now : ℚ) :
    (detect_port_scan s src port now).1.connection_tracker = s.connection_tracker ∧
    (detect_port_scan s src port now).1.whitelisted_ips = s.whitelisted_ips ∧
    (detect_port_scan s src port now).1.traffic_history = s.traffic_history ∧
    (detect_port_scan s src port now).1.config = s.config := by
  unfold detect_port_scan
  split
  · exact ⟨rfl, rfl, rfl, rfl⟩
  · dsimp only
    split
    · refine ⟨?_, ?_, ?_, ?_⟩ <;>
        · simp only [recordDetection, autoBlock]
          split <;> rfl
    · exact ⟨rfl, rfl, rfl, rfl⟩

theorem detect_port_scan_blocked_sub (s : MonitorState) (src x : String) (port : ℕ)
    (now : ℚ) (h : x ∈ (detect_port_scan s src port now).1.blocked_ips) :
    x ∈ s.blocked_ips ∨ (x = src ∧ src ∉ s.whitelisted_ips) := by
  unfold detect_port_scan at h
  split at h
  · exact Or.inl h
  · dsimp only at h
    split at h
    · simpa [recordDetection] using autoBlock_blocked_sub _ src x h
    · exact Or.inl h

theorem detect_ddos_frame (s : MonitorState) (src : String) (now : ℚ) :
    (detect_ddos s src now).1.connection_tracker = s.connection_tracker ∧
    (detect_ddos s src now).1.port_scan_tracker = s.port_scan_tracker ∧
    (detect_ddos s src now).1.whitelisted_ips = s.whitelisted_ips ∧
    (detect_ddos s src now).1.traffic_history = s.traffic_history ∧
    (detect_ddos s src now).1.config = s.config := by
  unfold detect_ddos
  split
  · exact ⟨rfl, rfl, rfl, rfl, rfl⟩
  · dsimp only
    split
    · refine ⟨?_, ?_, ?_, ?_, ?_⟩ <;>
        · simp only [recordDetection, autoBlock]
          split <;> rfl
    · exact ⟨rfl, rfl, rfl, rfl, rfl⟩

theorem detect_ddos_blocked_sub (s : MonitorState) (src x : String) (now : ℚ)
    (h : x ∈ (detect_ddos s src now).1.blocked_ips) :
    x ∈ s.blocked_ips ∨ (x = src ∧ src ∉ s.whitelisted_ips) := by
  unfold detect_ddos at h
  split at h
  · exact Or.inl h
  · dsimp only at h
    split at h
    · simpa [recordDetection] using autoBlock_blocked_sub _ src x h
    · exact Or.inl h

theorem analyzeTcp_frame (s : MonitorState) (packet : List ℕ) (info : IPInfo) (now : ℚ) :
    (analyzeTcp s packet info now).connection_tracker = s.connection_tracker ∧
    (analyzeTcp s packet info now).whitelisted_ips = s.whitelisted_ips ∧
    (analyzeTcp s packet info now).config = s.config := by
  unfold analyzeTcp
  split
  · exact ⟨rfl, rfl, rfl⟩
  · rename_i tcp heq
    refine ⟨?_, ?_, ?_⟩ <;>
      simp [updateInvPorts_frame, logTraffic, detect_ddos_frame, detect_port_scan_frame]

theorem analyzeTcp_blocked_sub (s : MonitorState) (packet : List ℕ) (info : IPInfo)
    (now : ℚ) (x : String) (h : x ∈ (analyzeTcp s packet info now).blocked_ips) :
    x ∈ s.blocked_ips ∨ (x = info.source_ip ∧ info.source_ip ∉ s.whitelisted_ips) := by
  unfold analyzeTcp at h
  split at h
  · exact Or.inl h
  · rename_i tcp heq
    rw [(updateInvPorts_frame _ _ _).2.2.2.1] at h
    have h2 : x ∈ (detect_ddos (detect_port_scan s info.source_ip tcp.destination_port now).1
        info.source_ip now).1.blocked_ips := by
      simpa [logTraffic] using h
    rcases detect_ddos_blocked_sub _ _ _ _ h2 with h3 | h3
    · rcases detect_port_scan_blocked_sub _ _ _ _ _ h3 with h4 | h4
      · exact Or.inl h4
      · exact Or.inr h4
    · rw [(detect_port_scan_frame s info.source_ip tcp.destination_port now).2.1] at h3
      exact Or.inr h3

theorem insertNat_length_le (l : List ℕ) (x : ℕ) :
    l.length ≤ (insertNat l x).length := by
  unfold insertNat
  split
  · exact le_refl _
  · simp

/-- C1: for every TCP packet from a non-allowlisted source, after inserting
the destination port into the source's port set, the port-scan detector fires
(returns `true` and appends exactly one high-severity alert carrying the
source) if and only if the size of the port set exceeds
`port_scan_threshold`; the stored port set after the call is exactly the
inserted set and never shrinks, so — the statement being universally
quantified over states — the detector fires again on every subsequent TCP
packet while the set stays above threshold. -/
theorem C1_port_scan_rule (s : MonitorState) (src : String) (port : ℕ) (now : ℚ)
    (h : src ∉ s.whitelisted_ips) :
    ((detect_port_scan s src port now).2 = true ↔
      s.config.port_scan_threshold <
        (insertNat (alookupD s.port_scan_tracker src []) port).length) ∧
    alookup (detect_port_scan s src port now).1.port_scan_tracker src =
      some (insertNat (alookupD s.port_scan_tracker src []) port) ∧
    (alookupD s.port_scan_tracker src []).length ≤
      (insertNat (alookupD s.port_scan_tracker src []) port).length ∧
    (s.config.port_scan_threshold <
        (insertNat (alookupD s.port_scan_tracker src []) port).length →
      (detect_port_scan s src port now).1.alerts = s.alerts ++
        [portScanAlert src (insertNat (alookupD s.port_scan_tracker src []) port).length now]) ∧
    (¬ s.config.port_scan_threshold <
        (insertNat (alookupD s.port_scan_tracker src []) port).length →
      (detect_port_scan s src port now).1.alerts = s.alerts) ∧
    (portScanAlert src (insertNat (alookupD s.port_scan_tracker src []) port).length now).type
      = "high" ∧
    (portScanAlert src (insertNat (alookupD s.port_scan_tracker src []) port).length now).source_ip
      = src := by
  unfold detect_port_scan
  rw [if_neg h]
  dsimp only
  split
  · rename_i hfire
    refine ⟨by simp [hfire], ?_, insertNat_length_le _ _, fun _ => ?_, fun hn => absurd hfire hn, rfl, rfl⟩
    · rw [(autoBlock_frame _ _).2.1]
      exact alookup_setk_self _ _ _
    · rw [(autoBlock_frame _ _).2.2.2.1]
      rfl
  · rename_i hfire
    exact ⟨by simp [hfire], alookup_setk_self _ _ _, insertNat_length_le _ _,
      fun hc => absurd hc hfire, fun _ => rfl, rfl, rfl⟩

theorem C1_port_scan_rule_witness :
    (detect_port_scan sThr0 "9.9.9.9" 80 0).2 = true :=
  (C1_port_scan_rule sThr0 "9.9.9.9" 80 0 (by decide)).1.mpr (by decide)

/-- C2: for every TCP packet from a non-allowlisted source, with `recent` the
number of the source's recorded packet timestamps within the last second, the
flood detector fires (returns `true` and appends exactly one high-severity
alert whose description carries the 1-second count) if and only if
`recent > ddos_threshold`; otherwise the state is unchanged. -/
theorem C2_flood_rule (s : MonitorState) (src : String) (now : ℚ)
    (h : src ∉ s.whitelisted_ips) :
    ((detect_ddos s src now).2 = true ↔
      s.config.ddos_threshold <
        ((alookupD s.connection_tracker src []).filter (fun t => now - t < 1)).length) ∧
    (s.config.ddos_threshold <
        ((alookupD s.connection_tracker src []).filter (fun t => now - t < 1)).length →
      (detect_ddos s src now).1.alerts = s.alerts ++
        [ddosAlert src
          ((alookupD s.connection_tracker src []).filter (fun t => now - t < 1)).length now]) ∧
    (¬ s.config.ddos_threshold <
        ((alookupD s.connection_tracker src []).filter (fun t => now - t < 1)).length →
      (detect_ddos s src now).1 = s) ∧
    (ddosAlert src
        ((alookupD s.connection_tracker src []).filter (fun t => now - t < 1)).length now).type
      = "high" ∧
    (ddosAlert src
        ((alookupD s.connection_tracker src []).filter (fun t => now - t < 1)).length now).description
      = "IP " ++ src ++ " sent "
        ++ toString ((alookupD s.connection_tracker src []).filter (fun t => now - t < 1)).length
        ++ " packets in 1 second" := by
  unfold detect_ddos
  rw [if_neg h]
  dsimp only
  split
  · rename_i hfire
    refine ⟨by simp [hfire], fun _ => ?_, fun hn => absurd hfire hn, rfl, rfl⟩
    rw [(autoBlock_frame _ _).2.2.2.1]
    rfl
  · rename_i hfire
    exact ⟨by simp [hfire], fun hc => absurd hc hfire, fun _ => rfl, rfl, rfl⟩

theorem C2_flood_rule_witness :
    (detect_ddos sDdos "9.9.9.9" (1 / 2)).2 = true :=
  (C2_flood_rule sDdos "9.9.9.9" (1 / 2) (by decide)).1.mpr
    (by norm_num [sDdos, initState, initConfig, alookupD, alookup])

theorem parse_pktA : parse_ip_header pktA = some infoA := by decide

theorem parse_tcp_pktA : parse_tcp_header pktA 20 = some tcpA := by decide

theorem ipString_pktA_src :
    ipString (byteAt pktA 12) (byteAt pktA 13) (byteAt pktA 14) (byteAt pktA 15)
      = "10.0.0.9" := by decide

/-- C5 (amended): the decoder requires at least 20 bytes and never throws —
it is a total function returning the decode-failure indicator `none` exactly
on inputs shorter than 20 bytes (the caught `struct.error` path) and `some`
on every input of at least 20 bytes; version, IHL and protocol are extracted
from the stated bytes but are NOT validated (non-IPv4 versions and IHL < 5
are not rejected; see the counterexample). -/
theorem C5_decoder_total (packet : List ℕ) :
    ((parse_ip_header packet).isSome = true ↔ 20 ≤ packet.length) ∧
    (∀ info, parse_ip_header packet = some info →
      info.version = byteAt packet 0 / 16 ∧
      info.header_length = byteAt packet 0 % 16 * 4 ∧
      info.protocol = byteAt packet 9) := by
  refine ⟨?_, ?_⟩
  · unfold parse_ip_header
    split
    · rename_i h
      simp only [Option.isSome_none, Bool.false_eq_true, false_iff]
      omega
    · rename_i h
      simp only [Option.isSome_some, true_iff]
      omega
  · intro info hinfo
    unfold parse_ip_header at hinfo
    split at hinfo
    · exact absurd hinfo (by simp)
    · have h := Option.some.inj hinfo
      subst h
      exact ⟨rfl, rfl, rfl⟩

theorem C5_decoder_total_witness : (parse_ip_header pktA).isSome = true :=
  (C5_decoder_total pktA).1.mpr (by decide)

/-- C5 counterexample: the 20-byte input with byte 0 = 0x60 (version nibble
6, IHL nibble 0 < 5) decodes successfully, so the decoder does not reject
non-IPv4 versions or IHL < 5 as the claim states. -/
theorem C5_decoder_cex :
    (parse_ip_header pktBadVersion).isSome = true ∧
    Option.map IPInfo.version (parse_ip_header pktBadVersion) = some 6 ∧
    Option.map IPInfo.header_length (parse_ip_header pktBadVersion) = some 0 := by
  decide

/-- C6 (amended): for every packet whose decoded source is allowlisted (and
not blocklisted), `analyze_packet` changes the state only by incrementing the
packet counter and appending the arrival time to the source's connection
record: no detector runs, no alert is appended, the source is never blocked,
and — contrary to the original claim — the packet is NOT appended to the
traffic log and its destination port is NOT recorded in the port tracker or
investigation data. -/
theorem C6_allowlisted_bypass (s : MonitorState) (packet : List ℕ) (now : ℚ)
    (info : IPInfo) (hp : parse_ip_header packet = some info)
    (hw : info.source_ip ∈ s.whitelisted_ips)
    (hb : info.source_ip ∉ s.blocked_ips) :
    analyze_packet s packet now =
      { s with packet_count := s.packet_count + 1
               connection_tracker := setk s.connection_tracker info.source_ip
                 (alookupD s.connection_tracker info.source_ip [] ++ [now]) } := by
  unfold analyze_packet
  rw [hp]
  dsimp only
  rw [if_neg hb, if_pos hw]

theorem C6_allowlisted_bypass_witness :
    analyze_packet sWL pktA 5 =
      { sWL with packet_count := 1
                 connection_tracker := [("10.0.0.9", [5])] } := by
  have h := C6_allowlisted_bypass sWL pktA 5 infoA parse_pktA (by decide) (by decide)
  rw [h]
  rfl

/-- C6 counterexample: with 10.0.0.9 allowlisted, analyzing a TCP packet
from 10.0.0.9 leaves the traffic log empty and records no destination port,
refuting "the packet is appended to the traffic log and its destination port
is recorded in the dossier" (the packet is still counted and its timestamp
recorded). -/
theorem C6_allowlisted_cex :
    (analyze_packet sWL pktA 5).traffic_history = [] ∧
    hasKey (analyze_packet sWL pktA 5).port_scan_tracker "10.0.0.9" = false ∧
    (analyze_packet sWL pktA 5).alerts = [] ∧
    (analyze_packet sWL pktA 5).packet_count = 1 ∧
    alookup (analyze_packet sWL pktA 5).connection_tracker "10.0.0.9" = some [5] := by
  norm_num [analyze_packet, parse_pktA, ipString_pktA_src, sWL, initState, infoA,
    initConfig, alookupD, alookup, setk, hasKey]

/-- C7 (amended): the 60-second eviction runs only when a packet from a
non-allowlisted, non-blocklisted source is processed, and only for that
source's record: immediately after such a step, every timestamp recorded for
that source satisfies now - t < 60.  The claim's global invariant — for every
source after any pipeline step, allowlisted sources included — fails: other
records are untouched by the step, and allowlisted sources are appended
without eviction (see the counterexample). -/
theorem C7_eviction_own_packet (s : MonitorState) (packet : List ℕ) (now : ℚ)
    (info : IPInfo) (hp : parse_ip_header packet = some info)
    (hb : info.source_ip ∉ s.blocked_ips)
    (hw : info.source_ip ∉ s.whitelisted_ips) :
    ∀ t ∈ alookupD (analyze_packet s packet now).connection_tracker info.source_ip [],
      now - t < 60 := by
  intro t ht
  unfold analyze_packet at ht
  rw [hp] at ht
  dsimp only at ht
  rw [if_neg hb, if_neg hw] at ht
  have hmem : t ∈ (alookupD s.connection_tracker info.source_ip [] ++ [now]).filter
      (fun t => now - t < 60) := by
    split at ht
    · rw [(analyzeTcp_frame _ _ _ _).1] at ht
      simpa [alookupD, alookup_setk_self] using ht
    · simpa [alookupD, alookup_setk_self] using ht
  have := (List.mem_filter.mp hmem).2
  exact of_decide_eq_true this

theorem C7_eviction_own_packet_witness : (5 : ℚ) - 5 < 60 :=
  C7_eviction_own_packet initState pktA 5 infoA parse_pktA (by decide) (by decide) 5
    (by norm_num [analyze_packet, parse_pktA, parse_tcp_pktA, analyzeTcp, infoA, tcpA,
      detect_port_scan, detect_ddos, initState, initConfig, alookupD, alookup, setk,
      hasKey, insertNat, logTraffic, updateInvPorts, mkTrafficEntry, recordDetection,
      autoBlock, ensureInv, addActivity])

/-- C7 counterexample: with 10.0.0.9 allowlisted, packets at times 0 and 100
leave both timestamps recorded for the source; at now = 100 the entry t = 0
violates now - t < 60, so recent timestamps of allowlisted sources are not
evicted on each update as the claim states. -/
theorem C7_eviction_cex :
    (0 : ℚ) ∈ alookupD
      (analyze_packet (analyze_packet sWL pktA 0) pktA 100).connection_tracker
      "10.0.0.9" [] ∧
    ¬ ((100 : ℚ) - 0 < 60) := by
  constructor
  · norm_num [analyze_packet, parse_pktA, ipString_pktA_src, sWL, initState, infoA,
      initConfig, alookupD, alookup, setk, hasKey]
  · norm_num

theorem mem_insertStr (l : List String) (y x : String) :
    x ∈ insertStr l y ↔ x ∈ l ∨ x = y := by
  unfold insertStr
  split
  · rename_i hy
    constructor
    · exact Or.inl
    · rintro (h | rfl)
      · exact h
      · exact hy
  · simp

theorem mem_removeStr (l : List String) (y x : String) :
    x ∈ removeStr l y ↔ x ∈ l ∧ x ≠ y := by
  unfold removeStr
  simp

theorem analyze_packet_whitelisted_frame (s : MonitorState) (packet : List ℕ) (now : ℚ) :
    (analyze_packet s packet now).whitelisted_ips = s.whitelisted_ips := by
  unfold analyze_packet
  dsimp only
  split
  · rfl
  · split
    · rfl
    · split
      · rfl
      · split
        · exact (analyzeTcp_frame _ _ _ _).2.1
        · rfl

theorem analyze_packet_blocked_sub (s : MonitorState) (packet : List ℕ) (now : ℚ)
    (x : String) (h : x ∈ (analyze_packet s packet now).blocked_ips) :
    x ∈ s.blocked_ips ∨ x ∉ s.whitelisted_ips := by
  unfold analyze_packet at h
  dsimp only at h
  split at h
  · exact Or.inl h
  · split at h
    · exact Or.inl h
    · split at h
      · exact Or.inl h
      · split at h
        · rcases analyzeTcp_blocked_sub _ _ _ _ _ h with h1 | h1
          · exact Or.inl h1
          · exact Or.inr (h1.1 ▸ h1.2)
        · exact Or.inl h

theorem block_ip_frame (s : MonitorState) (ip : String) (now : ℚ) :
    (block_ip s ip now).1.connection_tracker = s.connection_tracker ∧
    (block_ip s ip now).1.port_scan_tracker = s.port_scan_tracker ∧
    (block_ip s ip now).1.whitelisted_ips = s.whitelisted_ips := by
  unfold block_ip
  split
  · exact ⟨rfl, rfl, rfl⟩
  · split
    · exact ⟨rfl, rfl, rfl⟩
    · dsimp only
      split <;> exact ⟨rfl, rfl, rfl⟩

theorem block_ip_blocked_sub (s : MonitorState) (ip x : String) (now : ℚ)
    (h : x ∈ (block_ip s ip now).1.blocked_ips) :
    x ∈ s.blocked_ips ∨ (x = ip ∧ ip ∉ s.whitelisted_ips) := by
  unfold block_ip at h
  split at h
  · exact Or.inl h
  · rename_i hw
    split at h
    · exact Or.inl h
    · dsimp only at h
      split at h <;>
      · have h2 : x ∈ insertStr s.blocked_ips ip := h
        rcases (mem_insertStr _ _ _).mp h2 with h1 | h1
        · exact Or.inl h1
        · exact Or.inr ⟨h1, hw⟩

theorem block_ip_inv_mono (s : MonitorState) (ip : String) (now : ℚ) (j : String)
    (h : hasKey s.ip_investigation_data j = true) :
    hasKey (block_ip s ip now).1.ip_investigation_data j = true := by
  unfold block_ip
  split
  · exact h
  · split
    · exact h
    · dsimp only
      split
      · exact h
      · exact hasKey_setk_mono _ _ _ _ h

theorem whitelist_ip_conn_port_frame (s : MonitorState) (ip : String) (now : ℚ) :
    (whitelist_ip s ip now).1.connection_tracker = s.connection_tracker ∧
    (whitelist_ip s ip now).1.port_scan_tracker = s.port_scan_tracker := by
  unfold whitelist_ip
  dsimp only
  split
  · exact ⟨rfl, rfl⟩
  · split <;> exact ⟨rfl, rfl⟩

theorem whitelist_ip_blocked (s : MonitorState) (ip : String) (now : ℚ) :
    (whitelist_ip s ip now).1.blocked_ips = removeStr s.blocked_ips ip := by
  unfold whitelist_ip
  dsimp only
  split
  · rfl
  · split <;> rfl

theorem whitelist_ip_whitelisted_sub (s : MonitorState) (ip : String) (now : ℚ)
    (x : String) (h : x ∈ (whitelist_ip s ip now).1.whitelisted_ips) :
    x ∈ s.whitelisted_ips ∨ x = ip := by
  unfold whitelist_ip at h
  dsimp only at h
  split at h
  · exact Or.inl h
  · split at h <;>
    · have h2 : x ∈ insertStr s.whitelisted_ips ip := h
      exact (mem_insertStr _ _ _).mp h2

theorem whitelist_ip_adds (s : MonitorState) (ip : String) (now : ℚ) :
    ip ∈ (whitelist_ip s ip now).1.whitelisted_ips := by
  unfold whitelist_ip
  dsimp only
  split
  · rename_i hw
    exact hw
  · split <;>
    · exact (mem_insertStr _ _ _).mpr (Or.inr rfl)

theorem whitelist_ip_inv_mono (s : MonitorState) (ip : String) (now : ℚ) (j : String)
    (h : hasKey s.ip_investigation_data j = true) :
    hasKey (whitelist_ip s ip now).1.ip_investigation_data j = true := by
  unfold whitelist_ip
  dsimp only
  split
  · exact h
  · split
    · exact h
    · exact hasKey_setk_mono _ _ _ _ h

theorem recordDetection_inv_mono (s : MonitorState) (src : String) (ports : List ℕ)
    (act : Activity) (now : ℚ) (j : String)
    (h : hasKey s.ip_investigation_data j = true) :
    hasKey (recordDetection s src ports act now).ip_investigation_data j = true :=
  hasKey_addActivity_mono _ _ _ _ (hasKey_ensureInv_mono _ _ _ _ _ h)

theorem detect_port_scan_inv_mono (s : MonitorState) (src : String) (port : ℕ)
    (now : ℚ) (j : String) (h : hasKey s.ip_investigation_data j = true) :
    hasKey (detect_port_scan s src port now).1.ip_investigation_data j = true := by
  unfold detect_port_scan
  split
  · exact h
  · dsimp only
    split
    · rw [(autoBlock_frame _ _).2.2.2.2.2.1]
      exact recordDetection_inv_mono _ _ _ _ _ _ h
    · exact h

theorem detect_ddos_inv_mono (s : MonitorState) (src : String) (now : ℚ) (j : String)
    (h : hasKey s.ip_investigation_data j = true) :
    hasKey (detect_ddos s src now).1.ip_investigation_data j = true := by
  unfold detect_ddos
  split
  · exact h
  · dsimp only
    split
    · rw [(autoBlock_frame _ _).2.2.2.2.2.1]
      exact recordDetection_inv_mono _ _ _ _ _ _ h
    · exact h

theorem detect_port_scan_port_mono (s : MonitorState) (src : String) (port : ℕ)
    (now : ℚ) (j : String) (h : hasKey s.port_scan_tracker j = true) :
    hasKey (detect_port_scan s src port now).1.port_scan_tracker j = true := by
  unfold detect_port_scan
  split
  · exact h
  · dsimp only
    split
    · rw [(autoBlock_frame _ _).2.1]
      exact hasKey_setk_mono _ _ _ _ h
    · exact hasKey_setk_mono _ _ _ _ h

theorem updateInvPorts_inv_mono (s : MonitorState) (src : String) (port : ℕ)
    (j : String) (h : hasKey s.ip_investigation_data j = true) :
    hasKey (updateInvPorts s src port).ip_investigation_data j = true := by
  unfold updateInvPorts
  split
  · exact h
  · dsimp only
    split
    · exact h
    · exact hasKey_setk_mono _ _ _ _ h

theorem analyzeTcp_port_mono (s : MonitorState) (packet : List ℕ) (info : IPInfo)
    (now : ℚ) (j : String) (h : hasKey s.port_scan_tracker j = true) :
    hasKey (analyzeTcp s packet info now).port_scan_tracker j = true := by
  unfold analyzeTcp
  split
  · exact h
  · rename_i tcp heq
    rw [(updateInvPorts_frame _ _ _).2.1]
    simp only [logTraffic]
    rw [(detect_ddos_frame _ _ _).2.1]
    exact detect_port_scan_port_mono _ _ _ _ _ h

theorem analyzeTcp_inv_mono (s : MonitorState) (packet : List ℕ) (info : IPInfo)
    (now : ℚ) (j : String) (h : hasKey s.ip_investigation_data j = true) :
    hasKey (analyzeTcp s packet info now).ip_investigation_data j = true := by
  unfold analyzeTcp
  split
  · exact h
  · rename_i tcp heq
    apply updateInvPorts_inv_mono
    simp only [logTraffic]
    exact detect_ddos_inv_mono _ _ _ _ (detect_port_scan_inv_mono _ _ _ _ _ h)

theorem analyze_packet_conn_mono (s : MonitorState) (packet : List ℕ) (now : ℚ)
    (j : String) (h : hasKey s.connection_tracker j = true) :
    hasKey (analyze_packet s packet now).connection_tracker j = true := by
  unfold analyze_packet
  dsimp only
  split
  · exact h
  · split
    · exact h
    · split
      · exact hasKey_setk_mono _ _ _ _ h
      · split
        · rw [(analyzeTcp_frame _ _ _ _).1]
          exact hasKey_setk_mono _ _ _ _ h
        · exact hasKey_setk_mono _ _ _ _ h

theorem analyze_packet_port_mono (s : MonitorState) (packet : List ℕ) (now : ℚ)
    (j : String) (h : hasKey s.port_scan_tracker j = true) :
    hasKey (analyze_packet s packet now).port_scan_tracker j = true := by
  unfold analyze_packet
  dsimp only
  split
  · exact h
  · split
    · exact h
    · split
      · exact h
      · split
        · exact analyzeTcp_port_mono _ _ _ _ _ h
        · exact h

theorem analyze_packet_inv_mono (s : MonitorState) (packet : List ℕ) (now : ℚ)
    (j : String) (h : hasKey s.ip_investigation_data j = true) :
    hasKey (analyze_packet s packet now).ip_investigation_data j = true := by
  unfold analyze_packet
  dsimp only
  split
  · exact h
  · split
    · exact h
    · split
      · exact h
      · split
        · exact analyzeTcp_inv_mono _ _ _ _ _ h
        · exact h

theorem update_ip_notes_frame (s : MonitorState) (ip text : String) (now : ℚ) :
    (update_ip_notes s ip text now).connection_tracker = s.connection_tracker ∧
    (update_ip_notes s ip text now).port_scan_tracker = s.port_scan_tracker ∧
    (update_ip_notes s ip text now).blocked_ips = s.blocked_ips ∧
    (update_ip_notes s ip text now).whitelisted_ips = s.whitelisted_ips := by
  unfold update_ip_notes
  dsimp only
  split <;> exact ⟨rfl, rfl, rfl, rfl⟩

theorem update_ip_notes_inv_mono (s : MonitorState) (ip text : String) (now : ℚ)
    (j : String) (h : hasKey s.ip_investigation_data j = true) :
    hasKey (update_ip_notes s ip text now).ip_investigation_data j = true := by
  unfold update_ip_notes
  dsimp only
  split
  · exact hasKey_ensureInv_mono _ _ _ _ _ h
  · exact hasKey_setk_mono _ _ _ _ (hasKey_ensureInv_mono _ _ _ _ _ h)

theorem get_data_frame (s : MonitorState) (ip : String) (now : ℚ) :
    (get_ip_investigation_data s ip now).1.connection_tracker = s.connection_tracker ∧
    (get_ip_investigation_data s ip now).1.port_scan_tracker = s.port_scan_tracker ∧
    (get_ip_investigation_data s ip now).1.blocked_ips = s.blocked_ips ∧
    (get_ip_investigation_data s ip now).1.whitelisted_ips = s.whitelisted_ips := by
  unfold get_ip_investigation_data
  split <;> exact ⟨rfl, rfl, rfl, rfl⟩

theorem get_data_inv_mono (s : MonitorState) (ip : String) (now : ℚ) (j : String)
    (h : hasKey s.ip_investigation_data j = true) :
    hasKey (get_ip_investigation_data s ip now).1.ip_investigation_data j = true := by
  unfold get_ip_investigation_data
  split
  · exact h
  · dsimp only
    exact hasKey_setk_mono _ _ _ _ h

theorem exclusion_step (s : MonitorState) (op : Op) (h : exclusion s) :
    exclusion (step s op) := by
  cases op with
  | analyze packet now =>
      simp only [step]
      intro x hx
      rw [analyze_packet_whitelisted_frame]
      rcases analyze_packet_blocked_sub s packet now x hx with h1 | h1
      · exact h x h1
      · exact h1
  | block ip now =>
      simp only [step]
      intro x hx
      rw [(block_ip_frame s ip now).2.2]
      rcases block_ip_blocked_sub s ip x now hx with h1 | h1
      · exact h x h1
      · exact h1.1 ▸ h1.2
  | allow ip now =>
      simp only [step]
      intro x hx
      have hb : x ∈ removeStr s.blocked_ips ip := by
        rw [whitelist_ip_blocked] at hx
        exact hx
      have hb2 := (mem_removeStr _ _ _).mp hb
      intro hw
      rcases whitelist_ip_whitelisted_sub s ip now x hw with h1 | h1
      · exact h x hb2.1 h1
      · exact hb2.2 h1
  | removeBlock ip =>
      simp only [step]
      intro x hx
      have hb : x ∈ removeStr s.blocked_ips ip := hx
      exact h x ((mem_removeStr _ _ _).mp hb).1
  | removeAllow ip =>
      simp only [step]
      intro x hx hw
      have hw2 : x ∈ removeStr s.whitelisted_ips ip := hw
      exact h x hx ((mem_removeStr _ _ _).mp hw2).1
  | setNotes ip text now =>
      simp only [step]
      intro x hx
      rw [(update_ip_notes_frame s ip text now).2.2.2]
      have hb : x ∈ s.blocked_ips := by
        rw [(update_ip_notes_frame s ip text now).2.2.1] at hx
        exact hx
      exact h x hb
  | getData ip now =>
      simp only [step]
      intro x hx
      rw [(get_data_frame s ip now).2.2.2]
      have hb : x ∈ s.blocked_ips := by
        rw [(get_data_frame s ip now).2.2.1] at hx
        exact hx
      exact h x hb

theorem exclusion_fold (ops : List Op) (s : MonitorState) (h : exclusion s) :
    exclusion (ops.foldl step s) := by
  induction ops generalizing s with
  | nil => exact h
  | cons op rest ih => exact ih _ (exclusion_step s op h)

/-- C8: no address is ever in both access lists: from any state satisfying
the exclusion invariant, every sequence of operations (packet analysis with
auto-block, manual block, allow, the spec-modelled removals, notes, queries)
preserves it; `allow(addr)` removes the address from the blocklist and adds
it to the allowlist; and `block(addr)` on an allowlisted address fails
(returns `false`) and leaves the state unchanged. -/
theorem C8_access_list_exclusion :
    (∀ (s : MonitorState) (ops : List Op), exclusion s → exclusion (ops.foldl step s)) ∧
    (∀ (s : MonitorState) (ip : String) (now : ℚ),
      ip ∉ (whitelist_ip s ip now).1.blocked_ips ∧
      ip ∈ (whitelist_ip s ip now).1.whitelisted_ips) ∧
    (∀ (s : MonitorState) (ip : String) (now : ℚ),
      ip ∈ s.whitelisted_ips → block_ip s ip now = (s, false)) := by
  refine ⟨fun s ops h => exclusion_fold ops s h,
    fun s ip now => ⟨?_, whitelist_ip_adds s ip now⟩,
    fun s ip now h => ?_⟩
  · rw [whitelist_ip_blocked]
    intro hmem
    exact ((mem_removeStr _ _ _).mp hmem).2 rfl
  · unfold block_ip
    rw [if_pos h]

theorem C8_access_list_exclusion_witness :
    block_ip sWL "10.0.0.9" 0 = (sWL, false) :=
  C8_access_list_exclusion.2.2 sWL "10.0.0.9" 0 (by decide)

/-- C9 (amended): per-source state is created lazily, but in two tiers — the
connection record (recent packet times) is created on the first observed
non-blocklisted packet, while the investigation record (first_seen,
classification, notes, activity log — the record the dossier query returns)
is created only when a detection fires or notes are set, not on first
observation; and no per-source state is ever deleted: every operation
preserves existing keys of the connection tracker, the port tracker and the
investigation store. -/
theorem C9_dossier_lifecycle :
    (∀ (s : MonitorState) (packet : List ℕ) (now : ℚ) (info : IPInfo),
      parse_ip_header packet = some info → info.source_ip ∉ s.blocked_ips →
      hasKey (analyze_packet s packet now).connection_tracker info.source_ip = true) ∧
    (∀ (s : MonitorState) (op : Op) (j : String),
      hasKey s.connection_tracker j = true →
      hasKey (step s op).connection_tracker j = true) ∧
    (∀ (s : MonitorState) (op : Op) (j : String),
      hasKey s.port_scan_tracker j = true →
      hasKey (step s op).port_scan_tracker j = true) ∧
    (∀ (s : MonitorState) (op : Op) (j : String),
      hasKey s.ip_investigation_data j = true →
      hasKey (step s op).ip_investigation_data j = true) := by
  refine ⟨?_, ?_, ?_, ?_⟩
  · intro s packet now info hp hb
    unfold analyze_packet
    rw [hp]
    dsimp only
    rw [if_neg hb]
    split
    · exact hasKey_setk_self _ _ _
    · split
      · rw [(analyzeTcp_frame _ _ _ _).1]
        exact hasKey_setk_self _ _ _
      · exact hasKey_setk_self _ _ _
  · intro s op j h
    cases op with
    | analyze packet now => exact analyze_packet_conn_mono s packet now j h
    | block ip now =>
        simp only [step]
        rw [(block_ip_frame s ip now).1]
        exact h
    | allow ip now =>
        simp only [step]
        rw [(whitelist_ip_conn_port_frame s ip now).1]
        exact h
    | removeBlock ip => exact h
    | removeAllow ip => exact h
    | setNotes ip text now =>
        simp only [step]
        rw [(update_ip_notes_frame s ip text now).1]
        exact h
    | getData ip now =>
        simp only [step]
        rw [(get_data_frame s ip now).1]
        exact h
  · intro s op j h
    cases op with
    | analyze packet now => exact analyze_packet_port_mono s packet now j h
    | block ip now =>
        simp only [step]
        rw [(block_ip_frame s ip now).2.1]
        exact h
    | allow ip now =>
        simp only [step]
        rw [(whitelist_ip_conn_port_frame s ip now).2]
        exact h
    | removeBlock ip => exact h
    | removeAllow ip => exact h
    | setNotes ip text now =>
        simp only [step]
        rw [(update_ip_notes_frame s ip text now).2.1]
        exact h
    | getData ip now =>
        simp only [step]
        rw [(get_data_frame s ip now).2.1]
        exact h
  · intro s op j h
    cases op with
    | analyze packet now => exact analyze_packet_inv_mono s packet now j h
    | block ip now => exact block_ip_inv_mono s ip now j h
    | allow ip now => exact whitelist_ip_inv_mono s ip now j h
    | removeBlock ip => exact h
    | removeAllow ip => exact h
    | setNotes ip text now => exact update_ip_notes_inv_mono s ip text now j h
    | getData ip now => exact get_data_inv_mono s ip now j h

theorem C9_dossier_lifecycle_witness :
    hasKey (analyze_packet initState pktA 0).connection_tracker "10.0.0.9" = true :=
  C9_dossier_lifecycle.1 initState pktA 0 infoA parse_pktA (by decide)

/-- C9 counterexample: the first observed benign TCP packet from 10.0.0.9
creates the connection record but NOT the investigation record: the dossier
query returns nothing for the source, refuting "a dossier is created lazily
on the first observation (not only when a detection fires or notes are
set)". -/
theorem C9_dossier_cex :
    hasKey (analyze_packet initState pktA 0).ip_investigation_data "10.0.0.9" = false ∧
    (get_ip_investigation_data (analyze_packet initState pktA 0) "10.0.0.9" 0).2 = none ∧
    hasKey (analyze_packet initState pktA 0).connection_tracker "10.0.0.9" = true := by
  norm_num [analyze_packet, parse_pktA, parse_tcp_pktA, analyzeTcp, infoA, tcpA,
    detect_port_scan, detect_ddos, initState, initConfig, alookupD, alookup, setk,
    hasKey, insertNat, logTraffic, updateInvPorts, mkTrafficEntry, recordDetection,
    autoBlock, ensureInv, addActivity, get_ip_investigation_data]

/-- C10: querying an existing investigation record is not a pure read — it
writes the derived status (blocked before whitelisted before monitoring) and
the query time into the stored record; the write-back persists in the store
(visible to later reads) and is what the call returns; no other field of the
monitor changes. -/
theorem C10_get_writes_back (s : MonitorState) (ip : String) (now : ℚ)
    (d : InvestigationData) (h : alookup s.ip_investigation_data ip = some d) :
    (get_ip_investigation_data s ip now).2 =
      some { d with status := some (statusOf s ip), last_seen := some now } ∧
    alookup (get_ip_investigation_data s ip now).1.ip_investigation_data ip =
      some { d with status := some (statusOf s ip), last_seen := some now } ∧
    (get_ip_investigation_data s ip now).1.connection_tracker = s.connection_tracker ∧
    (get_ip_investigation_data s ip now).1.blocked_ips = s.blocked_ips ∧
    (get_ip_investigation_data s ip now).1.whitelisted_ips = s.whitelisted_ips ∧
    (ip ∈ s.blocked_ips → statusOf s ip = "blocked") ∧
    (ip ∉ s.blocked_ips → ip ∈ s.whitelisted_ips → statusOf s ip = "whitelisted") ∧
    (ip ∉ s.blocked_ips → ip ∉ s.whitelisted_ips → statusOf s ip = "monitoring") := by
  unfold get_ip_investigation_data
  rw [h]
  dsimp only
  refine ⟨rfl, alookup_setk_self _ _ _, rfl, rfl, rfl, ?_, ?_, ?_⟩
  · intro hb
    unfold statusOf
    rw [if_pos hb]
  · intro hb hw
    unfold statusOf
    rw [if_neg hb, if_pos hw]
  · intro hb hw
    unfold statusOf
    rw [if_neg hb, if_neg hw]

theorem C10_get_writes_back_witness :
    (get_ip_investigation_data sInv "7.7.7.7" 3).1.connection_tracker =
      sInv.connection_tracker :=
  (C10_get_writes_back sInv "7.7.7.7" 3 (newInvestigation 0 []) rfl).2.2.1

theorem establish_baseline_cases (m : DetectorState) (now : ℚ) :
    (¬ (now - m.start_time < baseline_period) ∧ ¬ (m.packet_rates.length < 50) ∧
      establish_baseline m now =
        ({ m with baseline := some (mkBaseline m), baseline_established := true }, true)) ∨
    ((now - m.start_time < baseline_period ∨ m.packet_rates.length < 50) ∧
      establish_baseline m now = (m, false)) := by
  unfold establish_baseline
  by_cases h1 : now - m.start_time < baseline_period
  · right
    exact ⟨Or.inl h1, by rw [if_pos h1]⟩
  · rw [if_neg h1]
    by_cases h2 : m.packet_rates.length < 50
    · right
      exact ⟨Or.inr h2, by rw [if_pos h2]⟩
    · left
      exact ⟨h1, h2, by rw [if_neg h2]⟩

/-- C3: the baseline lifecycle over `analyze_traffic`: once a baseline is
established it and the flag are unchanged by every further tick however many
samples arrive (so the absent-to-present transition happens at most once);
while absent, the tick establishes it exactly when both
`now - start_time ≥ baseline_period` (3600 s) and the packet-rate series
holds at least 50 samples after this tick's sampling, and on establishment
it captures the mean and the Bessel-corrected (n−1) sample variance — the
square of the sample standard deviation — of each of the three global
series at that instant (`mkBaseline`). -/
theorem C3_baseline_lifecycle (s : DetectorState) (td : List TrafficEntry) (now : ℚ) :
    (s.baseline_established = true →
      (analyze_traffic s td now).1.baseline_established = true ∧
      (analyze_traffic s td now).1.baseline = s.baseline) ∧
    (s.baseline_established = false →
      ((analyze_traffic s td now).1.baseline_established = true ↔
        baseline_period ≤ now - s.start_time ∧
        50 ≤ (update_metrics s td now).packet_rates.length) ∧
      ((analyze_traffic s td now).1.baseline_established = true →
        (analyze_traffic s td now).1.baseline =
          some (mkBaseline (update_metrics s td now))) ∧
      ((analyze_traffic s td now).1.baseline_established = false →
        (analyze_traffic s td now).1.baseline = s.baseline)) := by
  constructor
  · intro h
    have hm : (update_metrics s td now).baseline_established = true := h
    unfold analyze_traffic
    dsimp only
    rw [if_neg (by rw [hm]; simp)]
    exact ⟨hm, rfl⟩
  · intro h
    have hm : (update_metrics s td now).baseline_established = false := h
    unfold analyze_traffic
    dsimp only
    rw [if_pos hm]
    rcases establish_baseline_cases (update_metrics s td now) now with
      ⟨h1, h2, heq⟩ | ⟨h12, heq⟩
    · rw [heq]
      refine ⟨?_, fun _ => rfl, fun hc => ?_⟩
      · simp only [true_iff]
        exact ⟨not_lt.mp h1, not_lt.mp h2⟩
      · simp at hc
    · rw [heq]
      refine ⟨?_, fun hc => ?_, fun _ => rfl⟩
      · simp only [hm, Bool.false_eq_true, false_iff]
        rintro ⟨ha, hb⟩
        rcases h12 with h1 | h2
        · exact absurd ha (not_le.mpr h1)
        · exact absurd hb (not_le.mpr h2)
      · rw [hm] at hc
        cases hc

theorem C3_baseline_lifecycle_witness :
    (analyze_traffic stEst [] 5).1.baseline = stEst.baseline :=
  ((C3_baseline_lifecycle stEst [] 5).1 rfl).2

theorem detect_packet_rate_anomaly_spec (d : DetectorState) (b : Baseline)
    (hest : d.baseline_established = true) (hb : d.baseline = some b)
    (hv : 0 ≤ b.packet_rate_var) :
    ((detect_packet_rate_anomaly d).isSome = true ↔
      0 < b.packet_rate_var ∧
      d.thresholds.packet_rate_std_multiplier ^ 2 * b.packet_rate_var <
        ((d.current_packet_rate : ℚ) - b.packet_rate_mean) ^ 2) ∧
    (b.packet_rate_var = 0 → detect_packet_rate_anomaly d = none) ∧
    (∀ a, detect_packet_rate_anomaly d = some a →
      d.thresholds.packet_rate_std_multiplier ^ 2 * b.packet_rate_var <
        (a.current_value - b.packet_rate_mean) ^ 2) := by
  unfold detect_packet_rate_anomaly
  rw [if_pos hest, hb]
  dsimp only
  by_cases hz : b.packet_rate_var = 0
  · rw [if_pos hz]
    refine ⟨?_, fun _ => rfl, fun a ha => absurd ha (by simp)⟩
    simp [hz]
  · rw [if_neg hz]
    by_cases hgt : d.thresholds.packet_rate_std_multiplier ^ 2 * b.packet_rate_var <
        ((d.current_packet_rate : ℚ) - b.packet_rate_mean) ^ 2
    · rw [if_pos hgt]
      refine ⟨?_, fun hc => absurd hc hz, fun a ha => ?_⟩
      · simp only [Option.isSome_some, true_iff]
        exact ⟨lt_of_le_of_ne hv (Ne.symm hz), hgt⟩
      · have h2 := Option.some.inj ha
        subst h2
        exact hgt
    · rw [if_neg hgt]
      refine ⟨?_, fun _ => rfl, fun a ha => absurd ha (by simp)⟩
      simp only [Option.isSome_none, Bool.false_eq_true, false_iff]
      rintro ⟨h1, h2⟩
      exact hgt h2

theorem detect_connection_anomaly_spec (d : DetectorState) (b : Baseline)
    (hest : d.baseline_established = true) (hb : d.baseline = some b)
    (hv : 0 ≤ b.connection_count_var) :
    ((detect_connection_anomaly d).isSome = true ↔
      0 < b.connection_count_var ∧
      d.thresholds.connection_count_std_multiplier ^ 2 * b.connection_count_var <
        ((d.current_connection_count : ℚ) - b.connection_count_mean) ^ 2) ∧
    (b.connection_count_var = 0 → detect_connection_anomaly d = none) ∧
    (∀ a, detect_connection_anomaly d = some a →
      d.thresholds.connection_count_std_multiplier ^ 2 * b.connection_count_var <
        (a.current_value - b.connection_count_mean) ^ 2) := by
  unfold detect_connection_anomaly
  rw [if_pos hest, hb]
  dsimp only
  by_cases hz : b.connection_count_var = 0
  · rw [if_pos hz]
    refine ⟨?_, fun _ => rfl, fun a ha => absurd ha (by simp)⟩
    simp [hz]
  · rw [if_neg hz]
    by_cases hgt : d.thresholds.connection_count_std_multiplier ^ 2 * b.connection_count_var <
        ((d.current_connection_count : ℚ) - b.connection_count_mean) ^ 2
    · rw [if_pos hgt]
      refine ⟨?_, fun hc => absurd hc hz, fun a ha => ?_⟩
      · simp only [Option.isSome_some, true_iff]
        exact ⟨lt_of_le_of_ne hv (Ne.symm hz), hgt⟩
      · have h2 := Option.some.inj ha
        subst h2
        exact hgt
    · rw [if_neg hgt]
      refine ⟨?_, fun _ => rfl, fun a ha => absurd ha (by simp)⟩
      simp only [Option.isSome_none, Bool.false_eq_true, false_iff]
      rintro ⟨h1, h2⟩
      exact hgt h2

theorem detect_port_anomaly_spec (d : DetectorState) (b : Baseline)
    (hest : d.baseline_established = true) (hb : d.baseline = some b)
    (hv : 0 ≤ b.port_count_var) :
    ((detect_port_anomaly d).isSome = true ↔
      0 < b.port_count_var ∧
      d.thresholds.connection_count_std_multiplier ^ 2 * b.port_count_var <
        ((d.current_unique_ports.length : ℚ) - b.port_count_mean) ^ 2) ∧
    (b.port_count_var = 0 → detect_port_anomaly d = none) ∧
    (∀ a, detect_port_anomaly d = some a →
      d.thresholds.connection_count_std_multiplier ^ 2 * b.port_count_var <
        (a.current_value - b.port_count_mean) ^ 2) := by
  unfold detect_port_anomaly
  rw [if_pos hest, hb]
  dsimp only
  by_cases hz : b.port_count_var = 0
  · rw [if_pos hz]
    refine ⟨?_, fun _ => rfl, fun a ha => absurd ha (by simp)⟩
    simp [hz]
  · rw [if_neg hz]
    by_cases hgt : d.thresholds.connection_count_std_multiplier ^ 2 * b.port_count_var <
        ((d.current_unique_ports.length : ℚ) - b.port_count_mean) ^ 2
    · rw [if_pos hgt]
      refine ⟨?_, fun hc => absurd hc hz, fun a ha => ?_⟩
      · simp only [Option.isSome_some, true_iff]
        exact ⟨lt_of_le_of_ne hv (Ne.symm hz), hgt⟩
      · have h2 := Option.some.inj ha
        subst h2
        exact hgt
    · rw [if_neg hgt]
      refine ⟨?_, fun _ => rfl, fun a ha => absurd ha (by simp)⟩
      simp only [Option.isSome_none, Bool.false_eq_true, false_iff]
      rintro ⟨h1, h2⟩
      exact hgt h2

/-- C4: before the baseline exists a tick emits no anomaly detection; once
it exists, the tick's output is exactly the three optional global detections
followed by the per-source ones, and for each global metric the detection is
present iff the baseline variance (the squared std) is strictly positive and
the squared deviation of the current value from the baseline mean exceeds
the squared threshold multiplier times the variance — the squared form of
`std > 0 ∧ |current - mean| / std > multiplier` — with `port_count`
deliberately reusing the connection multiplier; with variance 0 (std = 0)
the metric emits nothing; and any emitted detection's current value
satisfies the same squared inequality, i.e. lies strictly outside the band
`mean ± multiplier · std`.  The nonnegative-variance hypotheses hold for
every baseline the program ever stores (variances are sums of squares). -/
theorem C4_anomaly_rule (s : DetectorState) (td : List TrafficEntry) (now : ℚ) :
    (s.baseline_established = false → (analyze_traffic s td now).2 = []) ∧
    (∀ b : Baseline, s.baseline_established = true → s.baseline = some b →
      (analyze_traffic s td now).2 =
        (detect_packet_rate_anomaly (update_metrics s td now)).toList
          ++ (detect_connection_anomaly (update_metrics s td now)).toList
          ++ (detect_port_anomaly (update_metrics s td now)).toList
          ++ detect_ip_frequency_anomaly (update_metrics s td now) ∧
      (0 ≤ b.packet_rate_var →
        (((detect_packet_rate_anomaly (update_metrics s td now)).isSome = true ↔
          0 < b.packet_rate_var ∧
          s.thresholds.packet_rate_std_multiplier ^ 2 * b.packet_rate_var <
            (((update_metrics s td now).current_packet_rate : ℚ) - b.packet_rate_mean) ^ 2) ∧
        (b.packet_rate_var = 0 →
          detect_packet_rate_anomaly (update_metrics s td now) = none) ∧
        (∀ a, detect_packet_rate_anomaly (update_metrics s td now) = some a →
          s.thresholds.packet_rate_std_multiplier ^ 2 * b.packet_rate_var <
            (a.current_value - b.packet_rate_mean) ^ 2))) ∧
      (0 ≤ b.connection_count_var →
        (((detect_connection_anomaly (update_metrics s td now)).isSome = true ↔
          0 < b.connection_count_var ∧
          s.thresholds.connection_count_std_multiplier ^ 2 * b.connection_count_var <
            (((update_metrics s td now).current_connection_count : ℚ)
              - b.connection_count_mean) ^ 2) ∧
        (b.connection_count_var = 0 →
          detect_connection_anomaly (update_metrics s td now) = none) ∧
        (∀ a, detect_connection_anomaly (update_metrics s td now) = some a →
          s.thresholds.connection_count_std_multiplier ^ 2 * b.connection_count_var <
            (a.current_value - b.connection_count_mean) ^ 2))) ∧
      (0 ≤ b.port_count_var →
        (((detect_port_anomaly (update_metrics s td now)).isSome = true ↔
          0 < b.port_count_var ∧
          s.thresholds.connection_count_std_multiplier ^ 2 * b.port_count_var <
            (((update_metrics s td now).current_unique_ports.length : ℚ)
              - b.port_count_mean) ^ 2) ∧
        (b.port_count_var = 0 →
          detect_port_anomaly (update_metrics s td now) = none) ∧
        (∀ a, detect_port_anomaly (update_metrics s td now) = some a →
          s.thresholds.connection_count_std_multiplier ^ 2 * b.port_count_var <
            (a.current_value - b.port_count_mean) ^ 2)))) := by
  constructor
  · intro h
    have hm : (update_metrics s td now).baseline_established = false := h
    unfold analyze_traffic
    dsimp only
    rw [if_pos hm]
  · intro b hest hb
    have hestm : (update_metrics s td now).baseline_established = true := hest
    have hbm : (update_metrics s td now).baseline = some b := hb
    refine ⟨?_,
      fun hv => detect_packet_rate_anomaly_spec _ b hestm hbm hv,
      fun hv => detect_connection_anomaly_spec _ b hestm hbm hv,
      fun hv => detect_port_anomaly_spec _ b hestm hbm hv⟩
    unfold analyze_traffic
    dsimp only
    rw [if_neg (by rw [hestm]; simp)]

theorem C4_anomaly_rule_witness :
    (detect_packet_rate_anomaly (update_metrics stEst [] 5)).isSome = true := by
  have h := ((C4_anomaly_rule stEst [] 5).2 bEx rfl rfl).2.1 (by norm_num [bEx])
  apply h.1.mpr
  constructor
  · norm_num [bEx]
  · norm_num [bEx, stEst, initDetector, update_metrics, uniquePorts, ipCounts,
      pushCap, pushFreq, updateFreqs]

end IDS
